import Mathlib

/-!
# Verification of modemo.py (cellular modem diagnostic tool)

A shallow embedding of the transport-and-protocol core of `modemo.py`:
the AT-response decoders (`ModemConnection._parse_*`), the command
round-trip (`ModemConnection.send_at_command`), port enumeration ranking
(`ModemDiagnosticTool.detect_serial_ports`), the two-phase auto-detection
scan (`ModemDiagnosticTool.auto_detect_modem`), and the ModemManager
lease bookkeeping of the top-level session (`ModemDiagnosticTool.run`).

Python strings are Lean `String`s; the specific `re` patterns used by the
source are embedded as hand-rolled scanners with `re.search` semantics
(leftmost match; for these patterns, greedy matching of the trailing
optional groups never needs backtracking, so a deterministic scanner is
exact).  Python dicts holding decoded fields become association lists
where a later binding shadows an earlier one, matching assignment /
`dict.update` semantics.
-/

namespace Modemo

/-! ## Character-scanning primitives (model of the `re` usage in modemo.py) -/

/-- Match a literal character at the head of the input (one regex literal). -/
def expectChar (c : Char) : List Char → Option (List Char)
  | c' :: rest => if c' = c then some rest else none
  | [] => none

/-- Match a literal string at the head of the input. -/
def expectStr : List Char → List Char → Option (List Char)
  | [], s => some s
  | _, [] => none
  | p :: ps, c :: cs => if c = p then expectStr ps cs else none

/-- Consume an optional literal character (regex `c?`). -/
def optChar (c : Char) (s : List Char) : List Char :=
  match s with
  | c' :: rest => if c' = c then rest else s
  | [] => s

/-- Greedily skip whitespace (regex `\s*`). -/
def skipSpaces (s : List Char) : List Char :=
  s.dropWhile (fun c => c.isWhitespace)

/-- Python `int()` on a captured digit string. -/
def natOfDigits (ds : List Char) : Nat :=
  ds.foldl (fun a c => a * 10 + (c.toNat - '0'.toNat)) 0

def pyInt (s : String) : Nat := natOfDigits s.toList

/-- Capture one-or-more digits (regex `(\d+)`), returning the captured text. -/
def takeDigits1 (s : List Char) : Option (String × List Char) :=
  let ds := s.takeWhile Char.isDigit
  if ds.isEmpty then none else some (String.mk ds, s.drop ds.length)

/-- Capture one-or-more uppercase hex digits (regex `([0-9A-F]+)`). -/
def takeHex1 (s : List Char) : Option (String × List Char) :=
  let ds := s.takeWhile (fun c => c.isDigit || ('A' ≤ c && c ≤ 'F'))
  if ds.isEmpty then none else some (String.mk ds, s.drop ds.length)

/-- Capture a double-quoted possibly-empty field (regex `"([^"]*)"`). -/
def takeQuoted : List Char → Option (String × List Char)
  | '"' :: rest =>
    let content := rest.takeWhile (fun c => c != '"')
    (match rest.drop content.length with
     | '"' :: rest2 => some (String.mk content, rest2)
     | _ => none)
  | _ => none

/-- Capture a double-quoted nonempty hex field (regex `"([0-9A-F]+)"`). -/
def takeQuotedHex (s : List Char) : Option (String × List Char) := do
  let s ← expectChar '"' s
  let (h, s) ← takeHex1 s
  let s ← expectChar '"' s
  pure (h, s)

/-- `re.search` driver: try the matcher at every start position, leftmost first. -/
def searchAux (m : List Char → Option α) : List Char → Option α
  | [] => none
  | c :: rest =>
    match m (c :: rest) with
    | some r => some r
    | none => searchAux m rest

/-- Python `pat in s` (literal substring containment). -/
def containsChars (pat : List Char) : List Char → Bool
  | [] => (expectStr pat []).isSome
  | c :: rest => (expectStr pat (c :: rest)).isSome || containsChars pat rest

/-- Python `pat in s` on `String`s. -/
def strContains (s pat : String) : Bool := containsChars pat.toList s.toList

/-- Python `s.strip('"')`: drop leading and trailing double quotes. -/
def stripQuotes (s : String) : String :=
  String.mk (((s.toList.dropWhile (fun c => c == '"')).reverse.dropWhile
    (fun c => c == '"')).reverse)

/-- Python `re.sub(r'[^0-9]', '', s)`: keep only digit characters. -/
def digitsOnly (s : String) : String :=
  String.mk (s.toList.filter Char.isDigit)

/-- Python `s.lower()`. -/
def strToLower (s : String) : String :=
  String.mk (s.toList.map Char.toLower)

/-- Python `s.strip()`: drop leading and trailing whitespace. -/
def pyStrip (s : String) : String :=
  String.mk (((s.toList.dropWhile Char.isWhitespace).reverse.dropWhile
    Char.isWhitespace).reverse)

/-- Python `s.split(sep)` for a one-character separator: always returns at
least one piece. -/
def splitOnChar (sep : Char) : List Char → List (List Char)
  | [] => [[]]
  | c :: rest =>
    let r := splitOnChar sep rest
    if c = sep then [] :: r
    else (c :: r.headD []) :: r.tail

def pySplitOn (sep : Char) (s : String) : List String :=
  (splitOnChar sep s.toList).map String.mk

/-- Python `s.replace(pat, '')` for a nonempty `pat`: remove all
non-overlapping occurrences, left to right.  The fuel argument (the input
length) makes the recursion structural; each step consumes at least one
character. -/
def removeAllAux (pat : List Char) : Nat → List Char → List Char
  | 0, s => s
  | _, [] => []
  | fuel + 1, c :: rest =>
    match expectStr pat (c :: rest) with
    | some rest2 => removeAllAux pat fuel rest2
    | none => c :: removeAllAux pat fuel rest

def removeAll (pat : String) (s : String) : String :=
  if pat.isEmpty then s
  else String.mk (removeAllAux pat.toList s.toList.length s.toList)

/-- Python `'\n'.join(lines)`. -/
def joinLines : List String → String
  | [] => ""
  | [l] => l
  | l :: rest => l ++ "\n" ++ joinLines rest

/-- Python `s.endswith(suffix)`. -/
def strEndsWith (s suffix : String) : Bool :=
  (expectStr suffix.toList.reverse s.toList.reverse).isSome

/-! ## Decoded-field dictionaries

The source stores decoded fields in Python dicts whose values are strings,
ints, bools, or (for CGDCONT) a list of context records.  A dict is an
association list in assignment order; lookup returns the latest binding. -/

/-- One CGDCONT PDP context record (source `_parse_cgdcont`, lines 545-550). -/
structure PdpContext where
  cid : Nat
  pdp_type : String
  apn : String
  pdp_addr : String
  deriving Repr, DecidableEq

/-- A decoded field value (the value types that occur in `parsed_data`). -/
inductive FieldVal where
  | s (v : String)
  | i (v : Int)
  | b (v : Bool)
  | ctxs (v : List PdpContext)
  deriving Repr, DecidableEq

/-- A field dictionary in assignment order. -/
abbrev Dict := List (String × FieldVal)

/-- Dict lookup; the latest binding for a key wins (Python assignment /
`dict.update` semantics). -/
def dget : Dict → String → Option FieldVal
  | [], _ => none
  | (k', v) :: rest, k =>
    match dget rest k with
    | some v' => some v'
    | none => if k' = k then some v else none

/-- No binding in `d` uses the key `k`. -/
def keysNe (k : String) (d : Dict) : Prop := ∀ p ∈ d, p.1 ≠ k

theorem dget_append (a b : Dict) (k : String) :
    dget (a ++ b) k = match dget b k with | some v => some v | none => dget a k := by
  induction a with
  | nil =>
    simp only [List.nil_append]
    cases hb : dget b k <;> simp [dget]
  | cons p a ih =>
    obtain ⟨k', v⟩ := p
    simp only [List.cons_append, dget, List.append_eq]
    rw [ih]
    cases hb : dget b k <;> cases ha : dget a k <;> simp

theorem dget_eq_none_of_keysNe {d : Dict} {k : String} (h : keysNe k d) :
    dget d k = none := by
  induction d with
  | nil => rfl
  | cons p d ih =>
    obtain ⟨k', v⟩ := p
    have hk' : k' ≠ k := h (k', v) (List.mem_cons_self _ _)
    have hd : keysNe k d := fun q hq => h q (List.mem_cons_of_mem _ hq)
    simp [dget, ih hd, hk']

theorem keysNe_append {k : String} {a b : Dict}
    (ha : keysNe k a) (hb : keysNe k b) : keysNe k (a ++ b) := by
  intro p hp
  rcases List.mem_append.mp hp with h | h
  · exact ha p h
  · exact hb p h

/-! ## `_parse_csq` (source lines 493-537) -/

/-- Groups of `re.search(r'\+CSQ:\s*(\d+),(\d+)', line)`. -/
structure CsqMatch where
  rssi : Nat
  ber : Nat
  deriving Repr, DecidableEq

def csqMatchAt (s : List Char) : Option CsqMatch := do
  let s ← expectStr "+CSQ:".toList s
  let s := skipSpaces s
  let (d1, s) ← takeDigits1 s
  let s ← expectChar ',' s
  let (d2, _) ← takeDigits1 s
  pure ⟨pyInt d1, pyInt d2⟩

def searchCsq (line : String) : Option CsqMatch := searchAux csqMatchAt line.toList

/-- Source line 513: `dbm = -109 + (rssi - 2) * 2` (only reached for 2 ≤ rssi ≤ 30). -/
def csqDbmVal (rssi : Nat) : Int := -109 + ((rssi : Int) - 2) * 2

/-- The `rssi_dbm` string (source lines 506-527). -/
def csqRssiDbm (rssi : Nat) : String :=
  if rssi = 0 then "<= -113 dBm"
  else if rssi = 1 then "-111 dBm"
  else if 2 ≤ rssi ∧ rssi ≤ 30 then toString (csqDbmVal rssi) ++ " dBm"
  else if rssi = 31 then ">= -51 dBm"
  else "Unknown"

/-- The `signal_quality` string (source lines 506-528). -/
def csqSignalQuality (rssi : Nat) : String :=
  if rssi = 0 then "Very Poor"
  else if rssi = 1 then "Very Poor"
  else if 2 ≤ rssi ∧ rssi ≤ 30 then
    (if rssi < 10 then "Poor"
     else if rssi < 15 then "Fair"
     else if rssi < 20 then "Good"
     else "Excellent")
  else if rssi = 31 then "Excellent"
  else "Unknown"

/-- The 8-entry BER percentage table (source line 535). -/
def berTable : List String :=
  ["<0.2%", "0.2-0.4%", "0.4-0.8%", "0.8-1.6%", "1.6-3.2%", "3.2-6.4%",
   "6.4-12.8%", ">12.8%"]

/-- The `ber_text` string (source lines 531-535), index clamped by `min(ber, 7)`. -/
def csqBerText (ber : Nat) : String :=
  if ber = 99 then "Unknown or not detectable"
  else toString ber ++ " (" ++ berTable.getD (min ber 7) "" ++ ")"

/-- The dict entries written for one matched CSQ line (source lines 502-535);
every branch assigns all five keys. -/
def csqFields (rssi ber : Nat) : Dict :=
  [("rssi_raw", .i rssi), ("ber_raw", .i ber),
   ("rssi_dbm", .s (csqRssiDbm rssi)),
   ("signal_quality", .s (csqSignalQuality rssi)),
   ("ber_text", .s (csqBerText ber))]

/-- Entries contributed by one line of `_parse_csq`. -/
def csqLine (line : String) : Dict :=
  match searchCsq line with
  | some m => csqFields m.rssi m.ber
  | none => []

/-- `ModemConnection._parse_csq` (source lines 493-537). -/
def parse_csq (lines : List String) : Dict :=
  lines.foldl (fun acc line => acc ++ csqLine line) []

/-! ## `_parse_registration` (source lines 451-491) -/

/-- The alternation `(CREG|CGREG|CEREG)` of the registration regex. -/
inductive RegKind where
  | creg
  | cgreg
  | cereg
  deriving Repr, DecidableEq

/-- The text captured by group 1 for each alternative. -/
def RegKind.group1 : RegKind → String
  | .creg => "CREG"
  | .cgreg => "CGREG"
  | .cereg => "CEREG"

/-- Groups of
`re.search(r'\+(CREG|CGREG|CEREG):\s*(\d+)(?:,(\d+))?(?:,"([0-9A-F]+)","([0-9A-F]+)")?(?:,(\d+))?', line)`.
Groups 4 and 5 (`lac`, `ci`) match jointly, so they are carried as one
optional pair. -/
structure RegMatch where
  kind : RegKind
  n : Nat
  stat : Option Nat
  lacci : Option (String × String)
  act : Option Nat
  deriving Repr, DecidableEq

def regMatchAt (s : List Char) : Option RegMatch := do
  let s ← expectChar '+' s
  let (kind, s) ←
    (match expectStr "CREG".toList s with
     | some s1 => some (RegKind.creg, s1)
     | none =>
       match expectStr "CGREG".toList s with
       | some s1 => some (RegKind.cgreg, s1)
       | none =>
         match expectStr "CEREG".toList s with
         | some s1 => some (RegKind.cereg, s1)
         | none => none)
  let s ← expectChar ':' s
  let s := skipSpaces s
  let (d, s) ← takeDigits1 s
  let (stat, s) :=
    match (do
        let s1 ← expectChar ',' s
        takeDigits1 s1 : Option (String × List Char)) with
    | some (d2, s2) => (some (pyInt d2), s2)
    | none => (none, s)
  let (lacci, s) :=
    match (do
        let s1 ← expectChar ',' s
        let (lac, s2) ← takeQuotedHex s1
        let s3 ← expectChar ',' s2
        let (ci, s4) ← takeQuotedHex s3
        pure ((lac, ci), s4) : Option ((String × String) × List Char)) with
    | some (p, s5) => (some p, s5)
    | none => (none, s)
  let act :=
    match (do
        let s1 ← expectChar ',' s
        takeDigits1 s1 : Option (String × List Char)) with
    | some (d3, _) => some (pyInt d3)
    | none => none
  pure { kind := kind, n := pyInt d, stat := stat, lacci := lacci, act := act }

def searchReg (line : String) : Option RegMatch := searchAux regMatchAt line.toList

/-- The registration `<stat>` label table (source lines 463-470),
with default `Unknown (<stat>)`. -/
def regStatusText (stat : Nat) : String :=
  if stat = 0 then "Not registered, not searching"
  else if stat = 1 then "Registered, home network"
  else if stat = 2 then "Not registered, searching"
  else if stat = 3 then "Registration denied"
  else if stat = 4 then "Unknown"
  else if stat = 5 then "Registered, roaming"
  else "Unknown (" ++ toString stat ++ ")"

/-- The registration `<AcT>` label table (source lines 479-490). -/
def regActText (act : Nat) : String :=
  if act = 0 then "GSM"
  else if act = 1 then "GSM Compact"
  else if act = 2 then "UTRAN"
  else if act = 3 then "GSM w/EGPRS"
  else if act = 4 then "UTRAN w/HSDPA"
  else if act = 5 then "UTRAN w/HSUPA"
  else if act = 6 then "UTRAN w/HSDPA and HSUPA"
  else if act = 7 then "E-UTRAN"
  else if act = 8 then "EC-GSM-IoT"
  else if act = 9 then "E-UTRAN (NB-S1 mode)"
  else "Unknown (" ++ toString act ++ ")"

/-- The dict entries written for one matched registration line
(source lines 458-490); `stat := n` when group 3 is absent (line 460). -/
def regFields (m : RegMatch) : Dict :=
  let stat := m.stat.getD m.n
  let key := strToLower m.kind.group1 ++ "_status"
  [(key, .i stat), (key ++ "_text", .s (regStatusText stat))]
  ++ (match m.lacci with
      | some (lac, ci) => [("lac", .s lac), ("ci", .s ci)]
      | none => [])
  ++ (match m.act with
      | some a => [("act", .i a), ("act_text", .s (regActText a))]
      | none => [])

/-- Entries contributed by one line of `_parse_registration`. -/
def regLine (line : String) : Dict :=
  match searchReg line with
  | some m => regFields m
  | none => []

/-- `ModemConnection._parse_registration` (source lines 451-491). -/
def parse_registration (lines : List String) : Dict :=
  lines.foldl (fun acc line => acc ++ regLine line) []

/-! ## `_parse_cops` (source lines 410-449) -/

/-- Groups of `re.search(r'\+COPS:\s*(\d+)(?:,(\d+),"([^"]*)"(?:,(\d+))?)?', line)`. -/
structure CopsMatch where
  mode : Nat
  format : Option Nat
  oper : Option String
  act : Option Nat
  deriving Repr, DecidableEq

def copsMatchAt (s : List Char) : Option CopsMatch := do
  let s ← expectStr "+COPS:".toList s
  let s := skipSpaces s
  let (d1, s) ← takeDigits1 s
  match (do
      let s1 ← expectChar ',' s
      let (d2, s2) ← takeDigits1 s1
      let s3 ← expectChar ',' s2
      let (q, s4) ← takeQuoted s3
      pure (d2, q, s4) : Option (String × String × List Char)) with
  | none => pure ⟨pyInt d1, none, none, none⟩
  | some (d2, q, s5) =>
    match (do
        let s6 ← expectChar ',' s5
        takeDigits1 s6 : Option (String × List Char)) with
    | none => pure ⟨pyInt d1, some (pyInt d2), some q, none⟩
    | some (d3, _) => pure ⟨pyInt d1, some (pyInt d2), some q, some (pyInt d3)⟩

def searchCops (line : String) : Option CopsMatch := searchAux copsMatchAt line.toList

/-- The COPS `<mode>` label table (source lines 420-426). -/
def copsModeText (mode : Nat) : String :=
  if mode = 0 then "Automatic"
  else if mode = 1 then "Manual"
  else if mode = 2 then "Deregister"
  else if mode = 3 then "Set format only"
  else if mode = 4 then "Manual/Automatic"
  else "Unknown (" ++ toString mode ++ ")"

/-- The COPS `<AcT>` label table (source lines 435-448). -/
def copsActText (act : Nat) : String :=
  if act = 0 then "GSM"
  else if act = 1 then "GSM Compact"
  else if act = 2 then "UTRAN"
  else if act = 3 then "GSM w/EGPRS"
  else if act = 4 then "UTRAN w/HSDPA"
  else if act = 5 then "UTRAN w/HSUPA"
  else if act = 6 then "UTRAN w/HSDPA and HSUPA"
  else if act = 7 then "E-UTRAN"
  else if act = 8 then "EC-GSM-IoT"
  else if act = 9 then "E-UTRAN (NB-S1 mode)"
  else if act = 10 then "E-UTRA connected to 5GCN"
  else if act = 11 then "NR connected to 5GCN"
  else "Unknown (" ++ toString act ++ ")"

/-- The dict entries written for one matched COPS line (source lines 418-448).
`operator` is only written when group 3 is truthy, i.e. nonempty (line 430). -/
def copsFields (m : CopsMatch) : Dict :=
  [("mode", .i m.mode), ("mode_text", .s (copsModeText m.mode))]
  ++ (match m.format with
      | some f => [("format", .i f)]
      | none => [])
  ++ (match m.oper with
      | some q => if q ≠ "" then [("operator", .s q)] else []
      | none => [])
  ++ (match m.act with
      | some a => [("access_tech", .i a), ("access_tech_text", .s (copsActText a))]
      | none => [])

/-- Entries contributed by one line of `_parse_cops` (guarded by
`'+COPS:' in line`, source line 414). -/
def copsLine (line : String) : Dict :=
  if strContains line "+COPS:" then
    match searchCops line with
    | some m => copsFields m
    | none => []
  else []

/-- `ModemConnection._parse_cops` (source lines 410-449). -/
def parse_cops (lines : List String) : Dict :=
  lines.foldl (fun acc line => acc ++ copsLine line) []

/-! ## `_parse_cgdcont` (source lines 539-552) -/

/-- Groups of `re.search(r'\+CGDCONT:\s*(\d+),"([^"]*)","([^"]*)"(?:,"([^"]*)")?', line)`. -/
structure CgdcontMatch where
  cid : Nat
  pdpType : String
  apn : String
  addr : Option String
  deriving Repr, DecidableEq

def cgdcontMatchAt (s : List Char) : Option CgdcontMatch := do
  let s ← expectStr "+CGDCONT:".toList s
  let s := skipSpaces s
  let (d1, s) ← takeDigits1 s
  let s ← expectChar ',' s
  let (t, s) ← takeQuoted s
  let s ← expectChar ',' s
  let (a, s) ← takeQuoted s
  let addr :=
    match (do
        let s1 ← expectChar ',' s
        takeQuoted s1 : Option (String × List Char)) with
    | some (ad, _) => some ad
    | none => none
  pure { cid := pyInt d1, pdpType := t, apn := a, addr := addr }

def searchCgdcont (line : String) : Option CgdcontMatch :=
  searchAux cgdcontMatchAt line.toList

/-- `ModemConnection._parse_cgdcont` (source lines 539-552): the `contexts`
key is always present; each matched line appends one record, with the
address defaulting to the empty string (line 549). -/
def parse_cgdcont (lines : List String) : Dict :=
  [("contexts", .ctxs (lines.foldl (fun acc line =>
      match searchCgdcont line with
      | some m =>
        acc ++ [{ cid := m.cid, pdp_type := m.pdpType, apn := m.apn,
                  pdp_addr := m.addr.getD "" }]
      | none => acc) []))]

/-! ## `_parse_cpin` (source lines 554-569) -/

/-- The CPIN status label table (source lines 562-568), defaulting to the
raw status token. -/
def cpinText (status : String) : String :=
  if status = "READY" then "SIM is ready"
  else if status = "SIM PIN" then "SIM requires PIN"
  else if status = "SIM PUK" then "SIM requires PUK"
  else if status = "SIM PIN2" then "SIM requires PIN2"
  else if status = "SIM PUK2" then "SIM requires PUK2"
  else status

/-- Entries contributed by one line of `_parse_cpin` (guarded by
`'+CPIN:' in line`; `status = line.split(':')[1].strip()`). -/
def cpinLine (line : String) : Dict :=
  if strContains line "+CPIN:" then
    let status := pyStrip ((pySplitOn ':' line).getD 1 "")
    [("sim_status", .s status), ("sim_ready", .b (status == "READY")),
     ("sim_status_text", .s (cpinText status))]
  else []

/-- `ModemConnection._parse_cpin` (source lines 554-569). -/
def parse_cpin (lines : List String) : Dict :=
  lines.foldl (fun acc line => acc ++ cpinLine line) []

/-! ## `_parse_qeng` (source lines 356-382) -/

/-- Entries contributed by one line of `_parse_qeng`: comma-split of the
line with `'+QENG:'` removed, positional fields for an LTE serving cell
when field 0 is `servingcell` and at least 15 fields are present. -/
def qengLine (line : String) : Dict :=
  if strContains line "+QENG:" then
    let parts := pySplitOn ',' (pyStrip (removeAll "+QENG:" line))
    [("servingcell_type", .s (stripQuotes (parts.getD 0 "")))]
    ++ (if stripQuotes (parts.getD 0 "") = "servingcell" then
          if 15 ≤ parts.length then
            [("state", .s (stripQuotes (parts.getD 1 ""))),
             ("mode", .s (stripQuotes (parts.getD 2 ""))),
             ("mcc", .s (stripQuotes (parts.getD 4 ""))),
             ("mnc", .s (stripQuotes (parts.getD 5 ""))),
             ("cellid", .s (stripQuotes (parts.getD 6 ""))),
             ("pcid", .s (parts.getD 7 "")),
             ("earfcn", .s (parts.getD 8 "")),
             ("freq_band", .s (parts.getD 9 "")),
             ("ul_bandwidth", .s (parts.getD 10 "")),
             ("dl_bandwidth", .s (parts.getD 11 "")),
             ("tac", .s (stripQuotes (parts.getD 12 ""))),
             ("rsrp", .s (parts.getD 13 "" ++ " dBm")),
             ("rsrq", .s (parts.getD 14 "" ++ " dB")),
             ("rssi", .s (if 15 < parts.length then parts.getD 15 "" ++ " dBm" else "")),
             ("sinr", .s (if 16 < parts.length then parts.getD 16 "" ++ " dB" else ""))]
          else []
        else [])
  else []

/-- `ModemConnection._parse_qeng` (source lines 356-382). -/
def parse_qeng (lines : List String) : Dict :=
  lines.foldl (fun acc line => acc ++ qengLine line) []

/-! ## `_parse_qnwinfo` (source lines 384-396) -/

/-- Groups of
`re.search(r'\+QNWINFO:\s*"([^"]*)",?"([^"]*)",?"([^"]*)",?(\d+)', line)`.
`channel` is kept as the raw digit string (no `int()` in the source). -/
structure QnwinfoMatch where
  act : String
  oper : String
  band : String
  channel : String
  deriving Repr, DecidableEq

def qnwinfoMatchAt (s : List Char) : Option QnwinfoMatch := do
  let s ← expectStr "+QNWINFO:".toList s
  let s := skipSpaces s
  let (a, s) ← takeQuoted s
  let s := optChar ',' s
  let (o, s) ← takeQuoted s
  let s := optChar ',' s
  let (b, s) ← takeQuoted s
  let s := optChar ',' s
  let (c, _) ← takeDigits1 s
  pure { act := a, oper := o, band := b, channel := c }

def searchQnwinfo (line : String) : Option QnwinfoMatch :=
  searchAux qnwinfoMatchAt line.toList

/-- Entries contributed by one line of `_parse_qnwinfo` (guarded by
`'+QNWINFO:' in line`). -/
def qnwinfoLine (line : String) : Dict :=
  if strContains line "+QNWINFO:" then
    match searchQnwinfo line with
    | some m =>
      [("access_tech", .s m.act), ("operator", .s m.oper),
       ("band", .s m.band), ("channel", .s m.channel)]
    | none => []
  else []

/-- `ModemConnection._parse_qnwinfo` (source lines 384-396). -/
def parse_qnwinfo (lines : List String) : Dict :=
  lines.foldl (fun acc line => acc ++ qnwinfoLine line) []

/-! ## `_parse_qspn` (source lines 398-408) -/

/-- Groups of `re.search(r'\+QSPN:\s*"([^"]*)",?"([^"]*)",?"([^"]*)"', line)`. -/
structure QspnMatch where
  fnn : String
  snn : String
  spn : String
  deriving Repr, DecidableEq

def qspnMatchAt (s : List Char) : Option QspnMatch := do
  let s ← expectStr "+QSPN:".toList s
  let s := skipSpaces s
  let (f, s) ← takeQuoted s
  let s := optChar ',' s
  let (n, s) ← takeQuoted s
  let s := optChar ',' s
  let (p, _) ← takeQuoted s
  pure { fnn := f, snn := n, spn := p }

def searchQspn (line : String) : Option QspnMatch :=
  searchAux qspnMatchAt line.toList

/-- Entries contributed by one line of `_parse_qspn` (guarded by
`'+QSPN:' in line`). -/
def qspnLine (line : String) : Dict :=
  if strContains line "+QSPN:" then
    match searchQspn line with
    | some m => [("fnn", .s m.fnn), ("snn", .s m.snn), ("spn", .s m.spn)]
    | none => []
  else []

/-- `ModemConnection._parse_qspn` (source lines 398-408). -/
def parse_qspn (lines : List String) : Dict :=
  lines.foldl (fun acc line => acc ++ qspnLine line) []

/-! ## `_parse_response` (source lines 310-354) -/

/-- Source lines 315-316: split the response into stripped nonblank lines,
then drop the echoed command and bare `OK`/`ERROR` lines. -/
def respLines (command response : String) : List String :=
  (((pySplitOn '\n' response).map pyStrip).filter (fun l => l ≠ "")).filter
    (fun l => l ≠ command ∧ l ≠ "OK" ∧ l ≠ "ERROR" ∧ l ≠ "")

/-- The command-family dispatch of `_parse_response` (source lines
321-352), in the source's `elif` order. -/
def familyFields (command : String) (lines : List String) : Dict :=
  if strContains command "+COPS" then parse_cops lines
  else if strContains command "+CREG" || strContains command "+CGREG"
          || strContains command "+CEREG" then parse_registration lines
  else if strContains command "+CSQ" then parse_csq lines
  else if strContains command "+CGDCONT" then parse_cgdcont lines
  else if strContains command "+CPIN" then parse_cpin lines
  else if strContains command "+CIMI" then [("imsi", .s (lines.headD ""))]
  else if strContains command "+CCID" || strContains command "+ICCID"
          || strContains command "+QCCID" then
    [("iccid", .s (digitsOnly (lines.headD "")))]
  else if strContains command "+CGMI" then [("manufacturer", .s (lines.headD ""))]
  else if strContains command "+CGMM" then [("model", .s (lines.headD ""))]
  else if strContains command "+CGMR" then [("firmware", .s (lines.headD ""))]
  else if strContains command "+CGSN" then [("imei", .s (lines.headD ""))]
  else if command = "I" || strContains command "ATI" then
    [("info", .s (joinLines lines))]
  else if strContains command "+QENG" then parse_qeng lines
  else if strContains command "+QNWINFO" then parse_qnwinfo lines
  else if strContains command "+QSPN" then parse_qspn lines
  else []

/-- `ModemConnection._parse_response` (source lines 310-354): seed the dict
with `raw`, strip echo/`OK`/`ERROR` (returning only `raw` when nothing
remains, lines 318-319), then dispatch on command-family substrings. -/
def parse_response (command response : String) : Dict :=
  let parsed : Dict := [("raw", .s response)]
  let lines := respLines command response
  if lines.isEmpty then parsed
  else parsed ++ familyFields command lines

/-! ## `send_at_command` (source lines 257-308)

The serial handle is abstracted as: whether a connection is open, the text
that draining the input buffer will return after the write, and an optional
I/O exception raised inside the `try` block (write/read faults).  The
`timestamp` field of the source dataclass is wall-clock metadata and is
not modelled. -/

/-- The state `send_at_command` observes on one call. -/
structure SerialConn where
  isOpen : Bool
  incoming : String
  ioFault : Option String
  deriving Repr, DecidableEq

/-- The modelled `ATResponse` dataclass (source lines 157-165). -/
structure ATResponse where
  command : String
  raw_response : String
  parsed_data : Dict
  success : Bool
  error : Option String
  deriving Repr, DecidableEq

/-- Source lines 271-272: append `\r\n` if absent. -/
def ensureCrlf (command : String) : String :=
  if strEndsWith command "\r\n" then command else command ++ "\r\n"

/-- The body of the `try` block (source lines 269-298): an I/O fault during
write/read surfaces as `.error`; otherwise the buffered text is drained and
classified by literal `"OK"`/`"ERROR"` substring presence (line 288). -/
def sendBody (conn : SerialConn) (command : String) : Except String ATResponse :=
  match conn.ioFault with
  | some e => .error e
  | none =>
    let command := ensureCrlf command
    let response := conn.incoming
    let success := strContains response "OK" && !(strContains response "ERROR")
    let err := if strContains response "ERROR" then some "ERROR" else none
    .ok { command := pyStrip command, raw_response := response,
          parsed_data := parse_response (pyStrip command) response,
          success := success, error := err }

/-- `ModemConnection.send_at_command` (source lines 257-308): a closed
connection short-circuits to a `No connection` response (lines 259-267),
and any exception from the body is caught into an error response
(lines 300-308); the function is total — it never propagates an
exception. -/
def send_at_command (conn : SerialConn) (command : String) : ATResponse :=
  if !(conn.isOpen) then
    { command := command, raw_response := "", parsed_data := [],
      success := false, error := some "No connection" }
  else
    match sendBody conn command with
    | .ok r => r
    | .error e =>
      { command := command, raw_response := "", parsed_data := [],
        success := false, error := some e }

/-- Following the spec's words (§3): success iff the drained text contains
a *terminal* `OK` token — its last nonblank line is `OK` — and no `ERROR`
token.  Stated spec-side, for comparison with the source classification. -/
def specSuccessTerminalOk (text : String) : Bool :=
  ((((pySplitOn '\n' text).map pyStrip).filter (fun l => l ≠ "")).getLastD ""
    == "OK") && !(strContains text "ERROR")

/-! ## `detect_serial_ports`, Windows branch (source lines 1902-1996)

On Windows every enumerated COM port is wrapped in a record whose
`priority` is `-com_num` when `re.search(r'COM(\d+)', device)` matches and
`999` otherwise (lines 1920-1925), and the final list is sorted by the key
`(priority, path)` ascending (line 1996). -/

/-- Raw data from `serial.tools.list_ports.comports()` used by the source. -/
structure WinPortRaw where
  device : String
  description : String
  manufacturer : String
  deriving Repr, DecidableEq

/-- One enumerated candidate (the dict built at lines 1911-1918). -/
structure PortInfo where
  path : String
  name : String
  ptype : String
  description : String
  vendor : String
  priority : Int
  deriving Repr, DecidableEq

/-- `re.search(r'COM(\d+)', device)` followed by `int(group(1))`. -/
def comMatchAt (s : List Char) : Option Nat := do
  let s ← expectStr "COM".toList s
  let (d, _) ← takeDigits1 s
  pure (pyInt d)

def comNum (device : String) : Option Nat := searchAux comMatchAt device.toList

/-- Source lines 1920-1925: `priority = -com_num` on a match, else 999. -/
def comPriority (device : String) : Int :=
  match comNum device with
  | some n => -(n : Int)
  | none => 999

/-- The record built for one COM port (source lines 1911-1927); Python
`or` supplies the defaults for falsy description/manufacturer. -/
def winPortInfo (p : WinPortRaw) : PortInfo :=
  { path := p.device, name := p.device, ptype := "COM Port",
    description := if p.description = "" then "No description" else p.description,
    vendor := p.manufacturer,
    priority := comPriority p.device }

/-- Lexicographic `≤` on strings by code point (Python string comparison). -/
def strLeB (a b : String) : Bool :=
  decide (a < b) || a == b

/-- `≤` on the Python sort key `(priority, path)` (source line 1996). -/
def portKeyLe (a b : PortInfo) : Bool :=
  decide (a.priority < b.priority)
  || (a.priority == b.priority && strLeB a.path b.path)

/-- Stable insertion into a sorted list (a new element goes after equals). -/
def insertSorted (le : α → α → Bool) (x : α) : List α → List α
  | [] => [x]
  | y :: ys => if le y x then y :: insertSorted le x ys else x :: y :: ys

/-- Stable sort by a boolean `≤` (the semantics of Python `sorted`). -/
def sortByKey (le : α → α → Bool) (xs : List α) : List α :=
  xs.foldl (fun acc x => insertSorted le x acc) []

/-- `ModemDiagnosticTool.detect_serial_ports`, Windows branch
(source lines 1906-1927 and 1996). -/
def detect_serial_ports_windows (raw : List WinPortRaw) : List PortInfo :=
  sortByKey portKeyLe (raw.map winPortInfo)

/-! ## The two-phase auto-detection scan (source lines 2184-2277)

`test_port_for_modem` is abstracted as an oracle from (port, baud,
quick_test) to its `(is_working, error)` result; the model records the
exact sequence of probe calls the scan issues. -/

/-- One call to `test_port_for_modem`. -/
structure ProbeCall where
  port : String
  baud : Nat
  quick : Bool
  deriving Repr, DecidableEq

/-- The outcome oracle for `test_port_for_modem`. -/
abbrev ProbeFn := String → Nat → Bool → Bool × Option String

/-- Source line 2187. -/
def primary_baudrate : Nat := 115200

/-- Source line 2188. -/
def fallback_baudrates : List Nat := [9600, 460800, 57600, 19200]

/-- Phase 1 (source lines 2202-2240): probe each candidate in enumerated
order at the primary baud in quick mode, and `break` out of the whole scan
at the first success (line 2225).  Returns the collected working pairs and
the trace of probe calls issued. -/
def phase1Scan (probe : ProbeFn) : List String → List (String × Nat) × List ProbeCall
  | [] => ([], [])
  | p :: rest =>
    let r := probe p primary_baudrate true
    if r.1 then ([(p, primary_baudrate)], [⟨p, primary_baudrate, true⟩])
    else
      ((phase1Scan probe rest).1,
       ⟨p, primary_baudrate, true⟩ :: (phase1Scan probe rest).2)

/-- The inner Phase-2 loop for one candidate (source lines 2259-2274):
try the fallback bauds in their fixed order in full mode, `break` at the
first success. -/
def tryBauds (probe : ProbeFn) (p : String) : List Nat → Option (String × Nat) × List ProbeCall
  | [] => (none, [])
  | b :: rest =>
    let r := probe p b false
    if r.1 then (some (p, b), [⟨p, b, false⟩])
    else
      ((tryBauds probe p rest).1, ⟨p, b, false⟩ :: (tryBauds probe p rest).2)

/-- Phase 2 (source lines 2255-2277): every candidate is tried (no
cross-candidate break). -/
def phase2Scan (probe : ProbeFn) : List String → List (String × Nat) × List ProbeCall
  | [] => ([], [])
  | p :: rest =>
    ((match (tryBauds probe p fallback_baudrates).1 with
      | some pair => [pair]
      | none => []) ++ (phase2Scan probe rest).1,
     (tryBauds probe p fallback_baudrates).2 ++ (phase2Scan probe rest).2)

/-- The probing core of `auto_detect_modem` (source lines 2184-2277):
Phase 2 runs only when Phase 1 collected nothing (line 2245). -/
def autoDetectScan (probe : ProbeFn) (ports : List String) :
    List (String × Nat) × List ProbeCall :=
  let r1 := phase1Scan probe ports
  if r1.1.isEmpty then
    let r2 := phase2Scan probe ports
    (r1.1 ++ r2.1, r1.2 ++ r2.2)
  else r1

/-! ## The ModemManager lease (source lines 1891-1900, 2119-2298, 3511-3531)

The claim concerns Linux (`IS_LINUX` true; ModemManager only exists
there).  The model tracks the `self.modemmanager_was_stopped` flag and
counts invocations of `ModemManagerHelper.restart()`; user choices and
environment outcomes are oracle inputs. -/

/-- The tool's ModemManager bookkeeping: the
`self.modemmanager_was_stopped` flag and how many times
`ModemManagerHelper.restart()` has run. -/
structure MMState where
  stopped : Bool
  restarts : Nat
  deriving Repr, DecidableEq

/-- `ModemDiagnosticTool._restart_modemmanager_if_needed`
(source lines 1891-1900, with `IS_LINUX`): restart and clear the flag when
it is set. -/
def restartIfNeeded (s : MMState) : MMState :=
  if s.stopped then { stopped := false, restarts := s.restarts + 1 } else s

/-- How `auto_detect_modem` ends, abstracting the port scan. -/
inductive DetectOutcome where
  | noPorts
  | noWorking
  | found (port : String) (baud : Nat)
  deriving Repr, DecidableEq

/-- Oracle inputs to one `auto_detect_modem` call: whether ModemManager was
running and the user confirmed stopping it (line 2138), whether
`systemctl stop` succeeded (line 2140), and how the scan ends. -/
structure DetectEnv where
  userStops : Bool
  stopSucceeds : Bool
  outcome : DetectOutcome
  deriving Repr, DecidableEq

/-- The ModemManager bookkeeping of `ModemDiagnosticTool.auto_detect_modem`
(source lines 2119-2298): the local `modemmanager_was_stopped` is set at
line 2143; on the no-ports exit the flag is propagated and the service
restarted at once (lines 2153-2155); on the no-working exit (lines
2289-2291) and the found exits (lines 2297-2298) the flag is propagated
and the restart is left to the caller. -/
def auto_detect_modem (env : DetectEnv) (s : MMState) :
    Option (String × Nat) × MMState :=
  let localStopped := env.userStops && env.stopSucceeds
  match env.outcome with
  | .noPorts =>
    if localStopped then
      (none, restartIfNeeded { s with stopped := true })
    else (none, s)
  | .noWorking =>
    (none, if localStopped then { s with stopped := true } else s)
  | .found p b =>
    (some (p, b), if localStopped then { s with stopped := true } else s)

/-- Oracle inputs to one `connect_modem` call (auto-detection path,
source lines 2372-2428): the detection oracle, whether the user accepts the
manual-configuration fallback after a failed detection (line 2380), and
whether the serial connect + AT test succeed (lines 2408-2428). -/
structure ConnectEnv where
  detect : DetectEnv
  manualFallback : Bool
  serialOk : Bool
  deriving Repr, DecidableEq

/-- `ModemDiagnosticTool.connect_modem`, auto-detection path (source lines
2360-2428): returns whether a connection was established, threading the
ModemManager state. -/
def connect_modem (env : ConnectEnv) (s : MMState) : Bool × MMState :=
  let (res, s) := auto_detect_modem env.detect s
  match res with
  | some _ => (env.serialOk, s)
  | none =>
    if env.manualFallback then (env.serialOk, s)
    else (false, s)

/-- Oracle inputs to `run`: the first connect attempt, the user's answer to
`Retry connection?` (line 3518), and the second attempt. -/
structure RunEnv where
  c1 : ConnectEnv
  retry : Bool
  c2 : ConnectEnv
  deriving Repr, DecidableEq

/-- `ModemDiagnosticTool.run` (source lines 3511-3531): the ModemManager
state at process exit.  The two early `return`s (lines 3519 and 3521)
leave before the `try`/`finally` whose `finally` (line 3529) calls
`_restart_modemmanager_if_needed`; every path that reaches the
`try` ends in that `finally` (normal return or exception alike). -/
def runExitState (env : RunEnv) (s : MMState) : MMState :=
  let (ok1, s) := connect_modem env.c1 s
  if !ok1 then
    if !env.retry then s
    else
      let (ok2, s) := connect_modem env.c2 s
      if !ok2 then s
      else restartIfNeeded s
  else restartIfNeeded s

/-- A concrete probe oracle used as a witness input: only 57600 baud works. -/
def probeOnly57600 : ProbeFn := fun _ b _ => (b == 57600, none)

/-! ## Claims -/

/-- C1 (counterexample): the classification is not "terminal `OK` token":
the drained text `"AT\r\nBROKEN\r\n"` has no `OK` line at all (its only
nonblank lines are `AT` and `BROKEN`) and no `ERROR` token, yet
`send_at_command` reports success, because `BROKEN` contains `OK` as a
literal substring (source line 288). -/
theorem send_success_terminal_ok_counterexample :
    (send_at_command ⟨true, "AT\r\nBROKEN\r\n", none⟩ "AT").success = true ∧
    specSuccessTerminalOk "AT\r\nBROKEN\r\n" = false := by
  constructor <;> rfl

/-- C1 (amended): for every command sent on an open session whose
write/read raises no fault, the returned response has `success = true` iff
the drained text contains `"OK"` as a literal substring and contains no
`"ERROR"` substring (source line 288); a terminal position of the `OK`
token is not required. -/
theorem send_success_iff_ok_substring (conn : SerialConn) (command : String)
    (hopen : conn.isOpen = true) (hfault : conn.ioFault = none) :
    (send_at_command conn command).success
      = (strContains conn.incoming "OK" && !(strContains conn.incoming "ERROR")) := by
  simp [send_at_command, sendBody, hopen, hfault]

theorem send_success_iff_ok_substring_witness :
    (send_at_command ⟨true, "AT\r\nOK\r\n", none⟩ "AT").success
      = (strContains "AT\r\nOK\r\n" "OK" && !(strContains "AT\r\nOK\r\n" "ERROR")) :=
  send_success_iff_ok_substring ⟨true, "AT\r\nOK\r\n", none⟩ "AT" rfl rfl

/-- C3 (code bug, evaluated at the failing input): auto-detection stops
ModemManager and finds a working port, the subsequent serial connect fails
(`connect_modem` returns `False`), and the user declines the retry; `run`
then returns at source line 3519, before the `try`/`finally` of lines
3523-3529, so the process exits with the service still stopped and zero
`ModemManagerHelper.restart()` calls — although the tool printed
"Will auto-restart when you exit this program" (line 2142). -/
theorem run_exit_leaves_modemmanager_stopped :
    runExitState
      ⟨⟨⟨true, true, .found "/dev/ttyUSB2" 115200⟩, false, false⟩, false,
       ⟨⟨false, false, .noPorts⟩, false, false⟩⟩
      ⟨false, 0⟩ = ⟨true, 0⟩ := rfl

/-- C4 (code bug, evaluated at the failing input): for the two candidates
`COM1` and `COM2`, line 1923 (`priority = -com_num`, commented "Lower COM
numbers get higher priority") assigns `COM1` priority `-1` and `COM2`
priority `-2`, so the final priority-ascending sort (line 1996) enumerates
`COM2` *before* `COM1` — the opposite of the claimed (and commented)
lower-number-first ranking. -/
theorem com_port_ranking_reversed :
    comPriority "COM1" = -1 ∧ comPriority "COM2" = -2 ∧
    (detect_serial_ports_windows [⟨"COM1", "", ""⟩, ⟨"COM2", "", ""⟩]).map
        PortInfo.path = ["COM2", "COM1"] := by
  refine ⟨rfl, rfl, ?_⟩
  rfl

/-- In `csqFields` the `rssi_dbm` entry is the latest binding for its key. -/
theorem dget_csqFields_rssi_dbm (r b : Nat) :
    dget (csqFields r b) "rssi_dbm" = some (.s (csqRssiDbm r)) := rfl

/-- In `csqFields` the `signal_quality` entry is the latest binding for its key. -/
theorem dget_csqFields_quality (r b : Nat) :
    dget (csqFields r b) "signal_quality" = some (.s (csqSignalQuality r)) := rfl

/-- Decoding a single matched line is exactly `csqFields`. -/
theorem parse_csq_single {line : String} {m : CsqMatch}
    (hm : searchCsq line = some m) :
    parse_csq [line] = csqFields m.rssi m.ber := by
  simp [parse_csq, csqLine, hm]

theorem csqRssiDbm_of_mid {r : Nat} (h2 : 2 ≤ r) (h30 : r ≤ 30) :
    csqRssiDbm r = toString (csqDbmVal r) ++ " dBm" := by
  unfold csqRssiDbm
  rw [if_neg (by omega), if_neg (by omega), if_pos ⟨h2, h30⟩]

theorem csqSignalQuality_poor {r : Nat} (h2 : 2 ≤ r) (h : r < 10) :
    csqSignalQuality r = "Poor" := by
  unfold csqSignalQuality
  rw [if_neg (by omega), if_neg (by omega), if_pos ⟨h2, by omega⟩, if_pos h]

theorem csqSignalQuality_fair {r : Nat} (h10 : 10 ≤ r) (h15 : r < 15) :
    csqSignalQuality r = "Fair" := by
  unfold csqSignalQuality
  rw [if_neg (by omega), if_neg (by omega), if_pos ⟨by omega, by omega⟩,
    if_neg (by omega), if_pos h15]

theorem csqSignalQuality_good {r : Nat} (h15 : 15 ≤ r) (h20 : r < 20) :
    csqSignalQuality r = "Good" := by
  unfold csqSignalQuality
  rw [if_neg (by omega), if_neg (by omega), if_pos ⟨by omega, by omega⟩,
    if_neg (by omega), if_neg (by omega), if_pos h20]

theorem csqSignalQuality_excellent_mid {r : Nat} (h20 : 20 ≤ r) (h30 : r ≤ 30) :
    csqSignalQuality r = "Excellent" := by
  unfold csqSignalQuality
  rw [if_neg (by omega), if_neg (by omega), if_pos ⟨by omega, h30⟩,
    if_neg (by omega), if_neg (by omega), if_neg (by omega)]

theorem csqRssiDbm_unknown {r : Nat} (h : 31 < r) : csqRssiDbm r = "Unknown" := by
  unfold csqRssiDbm
  rw [if_neg (by omega), if_neg (by omega), if_neg (by omega), if_neg (by omega)]

theorem csqSignalQuality_unknown {r : Nat} (h : 31 < r) :
    csqSignalQuality r = "Unknown" := by
  unfold csqSignalQuality
  rw [if_neg (by omega), if_neg (by omega), if_neg (by omega), if_neg (by omega)]

/-- C5: the CSQ rssi decoding rules (source lines 493-537).  For any line
matched by the CSQ regex: rssi 0 decodes to `<= -113 dBm` / `Very Poor`;
rssi 1 to `-111 dBm` / `Very Poor`; for rssi in [2,30] the decoded dBm is
`-109 + (rssi-2)*2` (strictly increasing in rssi) with quality `Poor`
below 10, `Fair` below 15, `Good` below 20, else `Excellent`; rssi 31
decodes to `>= -51 dBm` / `Excellent`; larger rssi decodes to `Unknown`. -/
theorem csq_rssi_decoding (line : String) (m : CsqMatch)
    (hm : searchCsq line = some m) :
    (m.rssi = 0 →
      dget (parse_csq [line]) "rssi_dbm" = some (.s "<= -113 dBm") ∧
      dget (parse_csq [line]) "signal_quality" = some (.s "Very Poor")) ∧
    (m.rssi = 1 →
      dget (parse_csq [line]) "rssi_dbm" = some (.s "-111 dBm") ∧
      dget (parse_csq [line]) "signal_quality" = some (.s "Very Poor")) ∧
    (2 ≤ m.rssi → m.rssi ≤ 30 →
      dget (parse_csq [line]) "rssi_dbm"
        = some (.s (toString (csqDbmVal m.rssi) ++ " dBm")) ∧
      csqDbmVal m.rssi = -109 + ((m.rssi : Int) - 2) * 2 ∧
      (m.rssi < 10 →
        dget (parse_csq [line]) "signal_quality" = some (.s "Poor")) ∧
      (10 ≤ m.rssi → m.rssi < 15 →
        dget (parse_csq [line]) "signal_quality" = some (.s "Fair")) ∧
      (15 ≤ m.rssi → m.rssi < 20 →
        dget (parse_csq [line]) "signal_quality" = some (.s "Good")) ∧
      (20 ≤ m.rssi →
        dget (parse_csq [line]) "signal_quality" = some (.s "Excellent"))) ∧
    (m.rssi = 31 →
      dget (parse_csq [line]) "rssi_dbm" = some (.s ">= -51 dBm") ∧
      dget (parse_csq [line]) "signal_quality" = some (.s "Excellent")) ∧
    (31 < m.rssi →
      dget (parse_csq [line]) "rssi_dbm" = some (.s "Unknown") ∧
      dget (parse_csq [line]) "signal_quality" = some (.s "Unknown")) ∧
    (∀ r1 r2 : Nat, 2 ≤ r1 → r1 < r2 → r2 ≤ 30 → csqDbmVal r1 < csqDbmVal r2) := by
  rw [parse_csq_single hm]
  refine ⟨?_, ?_, ?_, ?_, ?_, ?_⟩
  · intro h
    rw [dget_csqFields_rssi_dbm, dget_csqFields_quality, h]
    exact ⟨rfl, rfl⟩
  · intro h
    rw [dget_csqFields_rssi_dbm, dget_csqFields_quality, h]
    exact ⟨rfl, rfl⟩
  · intro h2 h30
    rw [dget_csqFields_rssi_dbm, dget_csqFields_quality, csqRssiDbm_of_mid h2 h30]
    refine ⟨rfl, rfl, ?_, ?_, ?_, ?_⟩
    · intro h
      rw [csqSignalQuality_poor h2 h]
    · intro h10 h15
      rw [csqSignalQuality_fair h10 h15]
    · intro h15 h20
      rw [csqSignalQuality_good h15 h20]
    · intro h20
      rw [csqSignalQuality_excellent_mid h20 h30]
  · intro h
    rw [dget_csqFields_rssi_dbm, dget_csqFields_quality, h]
    exact ⟨rfl, rfl⟩
  · intro h
    rw [dget_csqFields_rssi_dbm, dget_csqFields_quality,
      csqRssiDbm_unknown h, csqSignalQuality_unknown h]
    exact ⟨rfl, rfl⟩
  · intro r1 r2 ha hb hc
    simp only [csqDbmVal]
    omega

theorem csq_rssi_decoding_witness :
    (dget (parse_csq ["+CSQ: 0,0"]) "rssi_dbm" = some (.s "<= -113 dBm") ∧
     dget (parse_csq ["+CSQ: 0,0"]) "signal_quality" = some (.s "Very Poor")) ∧
    csqDbmVal 2 < csqDbmVal 3 :=
  ⟨(csq_rssi_decoding "+CSQ: 0,0" ⟨0, 0⟩ rfl).1 rfl,
   (csq_rssi_decoding "+CSQ: 0,0" ⟨0, 0⟩ rfl).2.2.2.2.2 2 3 (by omega) (by omega)
     (by omega)⟩

/-- Decoding a single matched line is exactly `regFields`. -/
theorem parse_registration_single {line : String} {m : RegMatch}
    (hm : searchReg line = some m) :
    parse_registration [line] = regFields m := by
  simp [parse_registration, regLine, hm]

/-- C6: registration decoding (source lines 451-491).  When the `<stat>`
group is absent the decoder uses `stat := n` (line 460), accepting the
single-parameter unsolicited-report form; `+CREG: 2` yields stat 2
(`Not registered, searching`), and `+CREG: 2,5,"1A2B","3C4D"` yields
stat 5 with lac `1A2B` and ci `3C4D`. -/
theorem registration_stat_default :
    (∀ (line : String) (m : RegMatch), searchReg line = some m → m.stat = none →
      dget (parse_registration [line]) (strToLower m.kind.group1 ++ "_status")
        = some (.i m.n)) ∧
    dget (parse_registration ["+CREG: 2"]) "creg_status" = some (.i 2) ∧
    dget (parse_registration ["+CREG: 2"]) "creg_status_text"
      = some (.s "Not registered, searching") ∧
    dget (parse_registration ["+CREG: 2,5,\"1A2B\",\"3C4D\""]) "creg_status"
      = some (.i 5) ∧
    dget (parse_registration ["+CREG: 2,5,\"1A2B\",\"3C4D\""]) "lac"
      = some (.s "1A2B") ∧
    dget (parse_registration ["+CREG: 2,5,\"1A2B\",\"3C4D\""]) "ci"
      = some (.s "3C4D") := by
  refine ⟨?_, rfl, rfl, rfl, rfl, rfl⟩
  intro line m hm hstat
  rw [parse_registration_single hm]
  obtain ⟨kind, n, stat, lacci, act⟩ := m
  subst hstat
  cases kind <;> rcases lacci with _ | ⟨lac, ci⟩ <;> rcases act with _ | a <;> rfl

theorem registration_stat_default_witness :
    dget (parse_registration ["+CREG: 2"])
        (strToLower (RegKind.group1 .creg) ++ "_status") = some (.i 2) :=
  registration_stat_default.1 "+CREG: 2" ⟨.creg, 2, none, none, none⟩ rfl rfl

/-- C9: `send_at_command` is a total function (the source wraps the entire
I/O body in `try`/`except`, lines 269-308, so nothing escapes): without an
open connection it returns `success = false` with the `"No connection"`
reason (lines 259-267) rather than raising, and any I/O exception inside
the body is captured into the returned response's `error` field
(lines 300-308). -/
theorem send_at_command_never_raises (conn : SerialConn) (command : String) :
    (conn.isOpen = false →
      (send_at_command conn command).success = false ∧
      (send_at_command conn command).error = some "No connection") ∧
    (∀ e, conn.isOpen = true → sendBody conn command = .error e →
      (send_at_command conn command).success = false ∧
      (send_at_command conn command).error = some e) := by
  constructor
  · intro h
    simp [send_at_command, h]
  · intro e hopen hbody
    simp [send_at_command, hopen, hbody]

theorem send_at_command_never_raises_witness :
    ((send_at_command ⟨false, "", none⟩ "AT").success = false ∧
     (send_at_command ⟨false, "", none⟩ "AT").error = some "No connection") ∧
    ((send_at_command ⟨true, "", some "write timeout"⟩ "AT").success = false ∧
     (send_at_command ⟨true, "", some "write timeout"⟩ "AT").error
       = some "write timeout") :=
  ⟨(send_at_command_never_raises ⟨false, "", none⟩ "AT").1 rfl,
   (send_at_command_never_raises ⟨true, "", some "write timeout"⟩ "AT").2
     "write timeout" rfl rfl⟩

/-- C7: Phase-1 short-circuit (source lines 2202-2240).  If candidate `i`
is the first whose quick probe at the primary baud succeeds, then the
Phase-1 probe trace is exactly the first `i + 1` candidates at the primary
baud in quick mode — candidate `i + 1` and all later candidates are never
probed — and the collected working pair is candidate `i`. -/
theorem phase1_first_success_short_circuit (probe : ProbeFn) (ports : List String)
    (i : Nat) (hi : i < ports.length)
    (hsucc : (probe (ports.get ⟨i, hi⟩) primary_baudrate true).1 = true)
    (hfail : ∀ j (hj : j < i),
      (probe (ports.get ⟨j, by omega⟩) primary_baudrate true).1 = false) :
    (phase1Scan probe ports).2
      = (ports.take (i + 1)).map (fun p => ⟨p, primary_baudrate, true⟩) ∧
    (phase1Scan probe ports).1 = [(ports.get ⟨i, hi⟩, primary_baudrate)] := by
  induction ports generalizing i with
  | nil => exact absurd hi (by simp)
  | cons p rest ih =>
    cases i with
    | zero =>
      have hs : (probe p primary_baudrate true).1 = true := hsucc
      simp [phase1Scan, hs]
    | succ i' =>
      have hfailhead : (probe p primary_baudrate true).1 = false :=
        hfail 0 (Nat.succ_pos _)
      have hi' : i' < rest.length := by
        simpa using hi
      have ihx := ih i' hi' hsucc (fun j hj => hfail (j + 1) (by omega))
      simp [phase1Scan, hfailhead, ihx.1, ihx.2]

theorem phase1_first_success_short_circuit_witness :
    (phase1Scan (fun p _ _ => (p == "B", none)) ["A", "B", "C"]).2
      = ((["A", "B", "C"].take 2).map fun p => ProbeCall.mk p primary_baudrate true) ∧
    (phase1Scan (fun p _ _ => (p == "B", none)) ["A", "B", "C"]).1
      = [(["A", "B", "C"].get ⟨1, by decide⟩, primary_baudrate)] :=
  phase1_first_success_short_circuit (fun p _ _ => (p == "B", none))
    ["A", "B", "C"] 1 (by decide) rfl
    (fun j hj => by interval_cases j; rfl)

/-- The Phase-2 inner loop for one candidate issues the fallback bauds in
their fixed order, in full mode, through the first success. -/
theorem tryBauds_structure (probe : ProbeFn) (p : String) :
    ∀ bs : List Nat,
      (tryBauds probe p bs).2
        = ((bs.takeWhile (fun b => !(probe p b false).1)).map
            (fun b => ⟨p, b, false⟩))
          ++ (match bs.find? (fun b => (probe p b false).1) with
              | some b => [⟨p, b, false⟩]
              | none => []) ∧
      (tryBauds probe p bs).1
        = (bs.find? (fun b => (probe p b false).1)).map (fun b => (p, b))
  | [] => ⟨rfl, rfl⟩
  | b :: rest => by
    have ihx := tryBauds_structure probe p rest
    cases h : (probe p b false).1 with
    | true => simp [tryBauds, h, List.takeWhile_cons, List.find?_cons]
    | false =>
      simp [tryBauds, h, List.takeWhile_cons, List.find?_cons, ihx.1, ihx.2]

theorem phase2Scan_calls (probe : ProbeFn) :
    ∀ ports : List String,
      (phase2Scan probe ports).2
        = ports.flatMap (fun p =>
            ((fallback_baudrates.takeWhile (fun b => !(probe p b false).1)).map
                (fun b => ⟨p, b, false⟩))
              ++ (match fallback_baudrates.find? (fun b => (probe p b false).1) with
                  | some b => [⟨p, b, false⟩]
                  | none => []))
  | [] => rfl
  | p :: rest => by
    simp [phase2Scan, (tryBauds_structure probe p fallback_baudrates).1,
      phase2Scan_calls probe rest]

theorem phase2Scan_working (probe : ProbeFn) :
    ∀ ports : List String,
      (phase2Scan probe ports).1
        = ports.filterMap (fun p =>
            (fallback_baudrates.find? (fun b => (probe p b false).1)).map
              (fun b => (p, b)))
  | [] => rfl
  | p :: rest => by
    have h1 := (tryBauds_structure probe p fallback_baudrates).2
    cases hf : fallback_baudrates.find? (fun b => (probe p b false).1) with
    | none =>
      simp [phase2Scan, h1, hf, phase2Scan_working probe rest]
    | some b =>
      simp [phase2Scan, h1, hf, phase2Scan_working probe rest]

/-- C8: Phase 2 (source lines 2187-2188 and 2244-2277) runs iff Phase 1
collected no working pair.  When Phase 1 found one, the scan result is
Phase 1's alone (no further probe).  When Phase 1 found nothing, the probe
trace extends Phase 1's by, for each candidate in enumerated order, the
fallback bauds 9600, 460800, 57600, 19200 in that fixed order in full mode
(`quick_test = False`), stopping at the first success for that candidate;
the working pairs collected are each candidate's first working baud. -/
theorem phase2_runs_iff_phase1_empty (probe : ProbeFn) (ports : List String) :
    ((phase1Scan probe ports).1 ≠ [] →
      autoDetectScan probe ports = phase1Scan probe ports) ∧
    ((phase1Scan probe ports).1 = [] →
      (autoDetectScan probe ports).2
        = (phase1Scan probe ports).2
          ++ ports.flatMap (fun p =>
              ((fallback_baudrates.takeWhile (fun b => !(probe p b false).1)).map
                  (fun b => ⟨p, b, false⟩))
                ++ (match fallback_baudrates.find? (fun b => (probe p b false).1) with
                    | some b => [⟨p, b, false⟩]
                    | none => [])) ∧
      (autoDetectScan probe ports).1
        = ports.filterMap (fun p =>
            (fallback_baudrates.find? (fun b => (probe p b false).1)).map
              (fun b => (p, b)))) := by
  constructor
  · intro h
    have he : (phase1Scan probe ports).1.isEmpty = false := by
      cases hw : (phase1Scan probe ports).1 with
      | nil => exact absurd hw h
      | cons a l => rfl
    simp [autoDetectScan, he]
  · intro h
    have he : (phase1Scan probe ports).1.isEmpty = true := by
      rw [h]
      rfl
    refine ⟨?_, ?_⟩
    · simp [autoDetectScan, he, phase2Scan_calls probe ports]
    · simp [autoDetectScan, he, h, phase2Scan_working probe ports]

theorem phase2_runs_iff_phase1_empty_witness :
    (autoDetectScan probeOnly57600 ["A"]).2
      = (phase1Scan probeOnly57600 ["A"]).2
        ++ ["A"].flatMap (fun p =>
            ((fallback_baudrates.takeWhile
                (fun b => !(probeOnly57600 p b false).1)).map
                (fun b => ⟨p, b, false⟩))
              ++ (match fallback_baudrates.find?
                    (fun b => (probeOnly57600 p b false).1) with
                  | some b => [⟨p, b, false⟩]
                  | none => [])) ∧
    (autoDetectScan probeOnly57600 ["A"]).1
      = ["A"].filterMap (fun p =>
          (fallback_baudrates.find?
              (fun b => (probeOnly57600 p b false).1)).map
            (fun b => (p, b))) :=
  (phase2_runs_iff_phase1_empty probeOnly57600 ["A"]).2 rfl

/-! ### C10: the `raw` key survives every decode path -/

theorem keysNe_nil (k : String) : keysNe k [] := by
  intro p hp
  exact absurd hp (List.not_mem_nil p)

theorem keysNe_ite {k : String} {c : Prop} [Decidable c] {a b : Dict}
    (ha : keysNe k a) (hb : keysNe k b) : keysNe k (if c then a else b) := by
  split
  · exact ha
  · exact hb

theorem keysNe_foldl_append {k : String} (g : String → Dict)
    (hg : ∀ line, keysNe k (g line)) :
    ∀ (lines : List String) (acc : Dict), keysNe k acc →
      keysNe k (lines.foldl (fun acc line => acc ++ g line) acc)
  | [], _, hacc => hacc
  | l :: ls, acc, hacc =>
    keysNe_foldl_append g hg ls (acc ++ g l) (keysNe_append hacc (hg l))

theorem keysNe_cons {k k2 : String} {v : FieldVal} {d : Dict}
    (h1 : k2 ≠ k) (h2 : keysNe k d) : keysNe k ((k2, v) :: d) := by
  intro p hp
  rcases List.mem_cons.mp hp with rfl | hp
  · exact h1
  · exact h2 p hp

theorem keysNe_raw_csqLine (line : String) : keysNe "raw" (csqLine line) := by
  unfold csqLine
  cases searchCsq line with
  | none => exact keysNe_nil _
  | some m =>
    show keysNe "raw" (csqFields m.rssi m.ber)
    unfold csqFields
    repeat' apply keysNe_cons
    all_goals first | exact keysNe_nil _ | exact of_decide_eq_false rfl

theorem keysNe_raw_parse_csq (lines : List String) :
    keysNe "raw" (parse_csq lines) :=
  keysNe_foldl_append _ keysNe_raw_csqLine lines [] (keysNe_nil _)

theorem keysNe_raw_regLine (line : String) : keysNe "raw" (regLine line) := by
  unfold regLine
  cases searchReg line with
  | none => exact keysNe_nil _
  | some m =>
    show keysNe "raw" (regFields m)
    obtain ⟨kind, n, stat, lacci, act⟩ := m
    unfold regFields
    refine keysNe_append (keysNe_append ?_ ?_) ?_
    · cases kind <;>
        · repeat' apply keysNe_cons
          all_goals first | exact keysNe_nil _ | exact of_decide_eq_false rfl
    · rcases lacci with _ | ⟨lac, ci⟩
      · exact keysNe_nil _
      · repeat' apply keysNe_cons
        all_goals first | exact keysNe_nil _ | exact of_decide_eq_false rfl
    · rcases act with _ | a
      · exact keysNe_nil _
      · repeat' apply keysNe_cons
        all_goals first | exact keysNe_nil _ | exact of_decide_eq_false rfl

theorem keysNe_raw_parse_registration (lines : List String) :
    keysNe "raw" (parse_registration lines) :=
  keysNe_foldl_append _ keysNe_raw_regLine lines [] (keysNe_nil _)

theorem keysNe_raw_copsLine (line : String) : keysNe "raw" (copsLine line) := by
  unfold copsLine
  refine keysNe_ite ?_ (keysNe_nil _)
  cases searchCops line with
  | none => exact keysNe_nil _
  | some m =>
    show keysNe "raw" (copsFields m)
    obtain ⟨mode, fmt, oper, act⟩ := m
    unfold copsFields
    refine keysNe_append (keysNe_append (keysNe_append ?_ ?_) ?_) ?_
    · repeat' apply keysNe_cons
      all_goals first | exact keysNe_nil _ | exact of_decide_eq_false rfl
    · rcases fmt with _ | f
      · exact keysNe_nil _
      · repeat' apply keysNe_cons
        all_goals first | exact keysNe_nil _ | exact of_decide_eq_false rfl
    · rcases oper with _ | q
      · exact keysNe_nil _
      · refine keysNe_ite ?_ (keysNe_nil _)
        repeat' apply keysNe_cons
        all_goals first | exact keysNe_nil _ | exact of_decide_eq_false rfl
    · rcases act with _ | a
      · exact keysNe_nil _
      · repeat' apply keysNe_cons
        all_goals first | exact keysNe_nil _ | exact of_decide_eq_false rfl

theorem keysNe_raw_parse_cops (lines : List String) :
    keysNe "raw" (parse_cops lines) :=
  keysNe_foldl_append _ keysNe_raw_copsLine lines [] (keysNe_nil _)

theorem keysNe_raw_parse_cgdcont (lines : List String) :
    keysNe "raw" (parse_cgdcont lines) := by
  unfold parse_cgdcont
  repeat' apply keysNe_cons
  all_goals first | exact keysNe_nil _ | exact of_decide_eq_false rfl

theorem keysNe_raw_cpinLine (line : String) : keysNe "raw" (cpinLine line) := by
  unfold cpinLine
  refine keysNe_ite ?_ (keysNe_nil _)
  repeat' apply keysNe_cons
  all_goals first | exact keysNe_nil _ | exact of_decide_eq_false rfl

theorem keysNe_raw_parse_cpin (lines : List String) :
    keysNe "raw" (parse_cpin lines) :=
  keysNe_foldl_append _ keysNe_raw_cpinLine lines [] (keysNe_nil _)

theorem keysNe_raw_qengLine (line : String) : keysNe "raw" (qengLine line) := by
  unfold qengLine
  refine keysNe_ite ?_ (keysNe_nil _)
  refine keysNe_append ?_ ?_
  · repeat' apply keysNe_cons
    all_goals first | exact keysNe_nil _ | exact of_decide_eq_false rfl
  · refine keysNe_ite ?_ (keysNe_nil _)
    refine keysNe_ite ?_ (keysNe_nil _)
    repeat' apply keysNe_cons
    all_goals first | exact keysNe_nil _ | exact of_decide_eq_false rfl

theorem keysNe_raw_parse_qeng (lines : List String) :
    keysNe "raw" (parse_qeng lines) :=
  keysNe_foldl_append _ keysNe_raw_qengLine lines [] (keysNe_nil _)

theorem keysNe_raw_qnwinfoLine (line : String) :
    keysNe "raw" (qnwinfoLine line) := by
  unfold qnwinfoLine
  refine keysNe_ite ?_ (keysNe_nil _)
  cases searchQnwinfo line with
  | none => exact keysNe_nil _
  | some m =>
    show keysNe "raw"
      [("access_tech", .s m.act), ("operator", .s m.oper),
       ("band", .s m.band), ("channel", .s m.channel)]
    repeat' apply keysNe_cons
    all_goals first | exact keysNe_nil _ | exact of_decide_eq_false rfl

theorem keysNe_raw_parse_qnwinfo (lines : List String) :
    keysNe "raw" (parse_qnwinfo lines) :=
  keysNe_foldl_append _ keysNe_raw_qnwinfoLine lines [] (keysNe_nil _)

theorem keysNe_raw_qspnLine (line : String) : keysNe "raw" (qspnLine line) := by
  unfold qspnLine
  refine keysNe_ite ?_ (keysNe_nil _)
  cases searchQspn line with
  | none => exact keysNe_nil _
  | some m =>
    show keysNe "raw" [("fnn", .s m.fnn), ("snn", .s m.snn), ("spn", .s m.spn)]
    repeat' apply keysNe_cons
    all_goals first | exact keysNe_nil _ | exact of_decide_eq_false rfl

theorem keysNe_raw_parse_qspn (lines : List String) :
    keysNe "raw" (parse_qspn lines) :=
  keysNe_foldl_append _ keysNe_raw_qspnLine lines [] (keysNe_nil _)

/-- No sub-decoder of the dispatch chain ever writes a `raw` key. -/
theorem keysNe_raw_familyFields (command : String) (lines : List String) :
    keysNe "raw" (familyFields command lines) := by
  unfold familyFields
  refine keysNe_ite (keysNe_raw_parse_cops _) ?_
  refine keysNe_ite (keysNe_raw_parse_registration _) ?_
  refine keysNe_ite (keysNe_raw_parse_csq _) ?_
  refine keysNe_ite (keysNe_raw_parse_cgdcont _) ?_
  refine keysNe_ite (keysNe_raw_parse_cpin _) ?_
  refine keysNe_ite (keysNe_cons (of_decide_eq_false rfl) (keysNe_nil _)) ?_
  refine keysNe_ite (keysNe_cons (of_decide_eq_false rfl) (keysNe_nil _)) ?_
  refine keysNe_ite (keysNe_cons (of_decide_eq_false rfl) (keysNe_nil _)) ?_
  refine keysNe_ite (keysNe_cons (of_decide_eq_false rfl) (keysNe_nil _)) ?_
  refine keysNe_ite (keysNe_cons (of_decide_eq_false rfl) (keysNe_nil _)) ?_
  refine keysNe_ite (keysNe_cons (of_decide_eq_false rfl) (keysNe_nil _)) ?_
  refine keysNe_ite (keysNe_cons (of_decide_eq_false rfl) (keysNe_nil _)) ?_
  refine keysNe_ite (keysNe_raw_parse_qeng _) ?_
  refine keysNe_ite (keysNe_raw_parse_qnwinfo _) ?_
  exact keysNe_ite (keysNe_raw_parse_qspn _) (keysNe_nil _)

/-- C10: for every command text and raw response string — recognized or
unrecognized family, empty or unparseable response — the decoded field map
contains the key `raw` bound to the complete, unmodified response text:
the seed entry of line 312 is never overwritten, because no sub-decoder
emits a `raw` key. -/
theorem parse_response_raw_present (command response : String) :
    dget (parse_response command response) "raw" = some (.s response) := by
  simp only [parse_response]
  split
  · rfl
  · rw [dget_append, dget_eq_none_of_keysNe (keysNe_raw_familyFields command _)]
    rfl

end Modemo
